import Mathlib

/-!
Shallow embedding of the Warbler route handlers (src/app.py).

The relational store is modelled as lists of rows; each Flask route handler
becomes a pure function from the store, the session, and the request data to
a `HandlerResult` holding the store afterwards, the session afterwards, the
flashed messages, and the response.  The anti-forgery (CSRF) check performed
by `validate_on_submit` is modelled by a boolean `csrf_ok`; form-field
validity is modelled by an `Option` carrying the validated field data.
Server-assigned values (fresh row ids, timestamps) are passed as parameters.
-/

/-- An account row (the `User` model): id, username (UNIQUE), email (UNIQUE),
hashed password credential, image_url, header_image_url, bio, location. -/
structure Account where
  id : Nat
  username : String
  email : String
  password : String
  image_url : String
  header_image_url : String
  bio : String
  location : String
  deriving Repr, DecidableEq

/-- A message row (the `Message` model): id, text, creation timestamp
(modelled as a Nat), owning account id (`user_id`). -/
structure Message where
  id : Nat
  text : String
  timestamp : Nat
  user_id : Nat
  deriving Repr, DecidableEq

/-- The relational store: Accounts, Messages, Follows(follower_id,
followee_id) and Likes(user_id, message_id).  The two edge tables have
composite primary keys, so a pair occurs at most once; row deletion on an
edge table removes the row with the given pair. -/
structure DB where
  users : List Account
  messages : List Message
  follows : List (Nat × Nat)
  likes : List (Nat × Nat)
  deriving Repr, DecidableEq

/-- The session: `session[CURR_USER_KEY]` when present. -/
abbrev Sess := Option Nat

/-- The visible outcome of one request. `renderHome` carries the messages
passed to the home template; `forbidden` is the raised `Forbidden`;
`serverError` is an uncaught exception (e.g. `ValueError` from
`list.remove`); `notFound` is `get_or_404` aborting. -/
inductive Response where
  | redirect (location : String)
  | render (template : String)
  | renderHome (messages : List Message)
  | forbidden
  | notFound
  | serverError
  deriving Repr, DecidableEq

/-- Result of one request. -/
structure HandlerResult where
  db : DB
  sess : Sess
  flashes : List (String × String)
  response : Response
  deriving Repr, DecidableEq

/-- `User.query.get(uid)`. -/
def findUser (db : DB) (uid : Nat) : Option Account :=
  db.users.find? (fun u => u.id == uid)

/-- `Message.query.get(mid)`. -/
def findMessage (db : DB) (mid : Nat) : Option Message :=
  db.messages.find? (fun m => m.id == mid)

/-- `add_user_to_g` (`@app.before_request`): `g.user` is the account of the
session's id when both exist, else `None`. -/
def gUser (db : DB) (sess : Sess) : Option Account :=
  sess.bind (findUser db)

/-- `flash("Access unauthorized.", "danger"); return redirect("/")` —
the uniform gate-failure outcome; the store and session are untouched. -/
def unauthorized (db : DB) (sess : Sess) : HandlerResult :=
  { db := db, sess := sess,
    flashes := [("Access unauthorized.", "danger")],
    response := Response.redirect "/" }

/-- Modelled from the spec: the default profile-image URLs live in
models.py, which is not under src/; only their role ("default if unset")
matters here, not their value. -/
def DEFAULT_IMAGE_URL : String := "/static/images/default-pic.png"

/-- Modelled from the spec: default header image URL from models.py. -/
def DEFAULT_HEADER_IMAGE_URL : String := "/static/images/warbler-hero.jpg"

/-- Modelled from the spec: `User.authenticate(username, password)` lives in
models.py, which is not under src/.  Per the spec it "returns the Account if
the username exists and the password verifies against the stored hash;
otherwise returns no match"; the one-way hash check is embedded as equality
with the stored credential. -/
def authenticate (db : DB) (username password : String) : Option Account :=
  match db.users.find? (fun u => u.username == username) with
  | some u => if u.password == password then some u else none
  | none => none

/-- `GET /` (`homepage`): `following_ids = [user.id for user in
g.user.following] + [g.user.id]`. -/
def followingIds (db : DB) (uid : Nat) : List Nat :=
  ((db.follows.filter (fun e => e.1 == uid)).map (fun e => e.2)) ++ [uid]

/-- `Message.query.filter(Message.user_id.in_(following_ids))
.order_by(Message.timestamp.desc()).limit(100).all()`. -/
def homepageFeed (db : DB) (uid : Nat) : List Message :=
  (((db.messages.filter
      (fun m => (followingIds db uid).contains m.user_id)).mergeSort
        (fun a b => b.timestamp ≤ a.timestamp)).take 100)

/-- `GET /` (`homepage`): signed-in viewers get the feed, anonymous users the
anon template. -/
def homepage (db : DB) (sess : Sess) : HandlerResult :=
  match gUser db sess with
  | some u =>
    { db := db, sess := sess, flashes := [],
      response := Response.renderHome (homepageFeed db u.id) }
  | none =>
    { db := db, sess := sess, flashes := [],
      response := Response.render "home-anon.html" }

/-- `POST /messages/<msg_id>/like` (`like_message`): gate is
`not form.validate_on_submit() or not g.user`; then `get_or_404`; then the
self-like check raising `Forbidden`; then the membership-tested toggle on
the Likes table, committed, redirecting to the referrer. -/
def like_message (db : DB) (sess : Sess) (csrf_ok : Bool) (msg_id : Nat)
    (referrer : String) : HandlerResult :=
  if !csrf_ok || (gUser db sess).isNone then unauthorized db sess
  else
    match gUser db sess with
    | none => unauthorized db sess
    | some u =>
      match findMessage db msg_id with
      | none =>
        { db := db, sess := sess, flashes := [],
          response := Response.notFound }
      | some msg =>
        if msg.user_id == u.id then
          { db := db, sess := sess, flashes := [],
            response := Response.forbidden }
        else if (u.id, msg.id) ∈ db.likes then
          { db := { db with
              likes := db.likes.filter (fun e => e ≠ (u.id, msg.id)) },
            sess := sess, flashes := [],
            response := Response.redirect referrer }
        else
          { db := { db with likes := db.likes ++ [(u.id, msg.id)] },
            sess := sess, flashes := [],
            response := Response.redirect referrer }

/-- `POST /messages/<message_id>/delete` (`delete_message`): gate, then
`get_or_404`, then `db.session.delete(msg); db.session.commit()` — the row
with the found message's id is removed, with no ownership check. -/
def delete_message (db : DB) (sess : Sess) (csrf_ok : Bool)
    (message_id : Nat) : HandlerResult :=
  if (gUser db sess).isNone || !csrf_ok then unauthorized db sess
  else
    match gUser db sess with
    | none => unauthorized db sess
    | some u =>
      match findMessage db message_id with
      | none =>
        { db := db, sess := sess, flashes := [],
          response := Response.notFound }
      | some msg =>
        { db := { db with
            messages := db.messages.filter (fun m => m.id ≠ msg.id) },
          sess := sess, flashes := [],
          response := Response.redirect ("/users/" ++ toString u.id) }

/-- `POST /logout` (`logout`): gate, then `do_logout()` clears the session. -/
def logout (db : DB) (sess : Sess) (csrf_ok : Bool) : HandlerResult :=
  if (gUser db sess).isNone || !csrf_ok then unauthorized db sess
  else
    { db := db, sess := none, flashes := [("Logged out", "success")],
      response := Response.redirect "/login" }

/-- `POST /users/follow/<follow_id>` (`start_following`): gate, then
`get_or_404`, then `g.user.following.append(followed_user)` commits a new
Follow edge. -/
def start_following (db : DB) (sess : Sess) (csrf_ok : Bool)
    (follow_id : Nat) (referrer : String) : HandlerResult :=
  if (gUser db sess).isNone || !csrf_ok then unauthorized db sess
  else
    match gUser db sess with
    | none => unauthorized db sess
    | some u =>
      match findUser db follow_id with
      | none =>
        { db := db, sess := sess, flashes := [],
          response := Response.notFound }
      | some fu =>
        { db := { db with follows := db.follows ++ [(u.id, fu.id)] },
          sess := sess, flashes := [],
          response := Response.redirect referrer }

/-- `POST /users/stop-following/<follow_id>` (`stop_following`): gate, then
`User.query.get` (no 404), then `g.user.following.remove(followed_user)` —
`list.remove` raises `ValueError` when the element is absent (including
`followed_user is None`), an uncaught server error; otherwise the edge row
is removed and committed. -/
def stop_following (db : DB) (sess : Sess) (csrf_ok : Bool)
    (follow_id : Nat) (referrer : String) : HandlerResult :=
  if (gUser db sess).isNone || !csrf_ok then unauthorized db sess
  else
    match gUser db sess with
    | none => unauthorized db sess
    | some u =>
      match findUser db follow_id with
      | none =>
        { db := db, sess := sess, flashes := [],
          response := Response.serverError }
      | some fu =>
        if (u.id, fu.id) ∈ db.follows then
          { db := { db with
              follows := db.follows.filter (fun e => e ≠ (u.id, fu.id)) },
            sess := sess, flashes := [],
            response := Response.redirect referrer }
        else
          { db := db, sess := sess, flashes := [],
            response := Response.serverError }

/-- `POST /users/delete` (`delete_user`): gate, then `do_logout()`, then
`Message.query.filter_by(user_id=g.user.id).delete()`, then
`db.session.delete(g.user)`, committed, redirect to /signup. -/
def delete_user (db : DB) (sess : Sess) (csrf_ok : Bool) : HandlerResult :=
  if (gUser db sess).isNone || !csrf_ok then unauthorized db sess
  else
    match gUser db sess with
    | none => unauthorized db sess
    | some u =>
      { db := { db with
          messages := db.messages.filter (fun m => m.user_id ≠ u.id),
          users := db.users.filter (fun a => a.id ≠ u.id) },
        sess := none, flashes := [],
        response := Response.redirect "/signup" }

/-- `GET|POST /messages/new` (`add_message`): requires `g.user`; the
`MessageForm`'s `validate_on_submit` (CSRF and field validation together) is
modelled by `csrf_ok` and the optional validated text; on success a new
message owned by `g.user` is appended (fresh id and server timestamp are
parameters); otherwise the compose form is rendered with no flash. -/
def add_message (db : DB) (sess : Sess) (csrf_ok : Bool)
    (text : Option String) (fresh_id ts : Nat) : HandlerResult :=
  match gUser db sess with
  | none => unauthorized db sess
  | some u =>
    match (if csrf_ok then text else none) with
    | some t =>
      { db := { db with messages := db.messages ++
          [{ id := fresh_id, text := t, timestamp := ts, user_id := u.id }] },
        sess := sess, flashes := [],
        response := Response.redirect ("/users/" ++ toString u.id) }
    | none =>
      { db := db, sess := sess, flashes := [],
        response := Response.render "messages/create.html" }

/-- The validated fields of `UserEditForm`, including the current-password
confirmation. -/
structure EditForm where
  username : String
  email : String
  image_url : String
  header_image_url : String
  bio : String
  password : String
  deriving Repr, DecidableEq

/-- `GET|POST /users/edit-profile` (`profile`): requires `g.user`; when the
form validates (CSRF included), `User.authenticate(g.user.username,
form.password.data)` gates the update: on success the acting account's row
gets the new fields (empty image URLs fall back to the defaults) and is
committed; on failure nothing is written and "Incorrect password" is
flashed over the re-rendered form. -/
def profile (db : DB) (sess : Sess) (csrf_ok : Bool)
    (form : Option EditForm) : HandlerResult :=
  match gUser db sess with
  | none => unauthorized db sess
  | some u =>
    match (if csrf_ok then form else none) with
    | some f =>
      if (authenticate db u.username f.password).isSome then
        { db := { db with users := db.users.map (fun a =>
            if a.id == u.id then
              { a with
                username := f.username,
                email := f.email,
                image_url :=
                  if f.image_url == "" then DEFAULT_IMAGE_URL
                  else f.image_url,
                header_image_url :=
                  if f.header_image_url == "" then DEFAULT_HEADER_IMAGE_URL
                  else f.header_image_url,
                bio := f.bio }
            else a) },
          sess := sess, flashes := [],
          response := Response.redirect ("/users/" ++ toString u.id) }
      else
        { db := db, sess := sess,
          flashes := [("Incorrect password", "danger")],
          response := Response.render "users/edit.html" }
    | none =>
      { db := db, sess := sess, flashes := [],
        response := Response.render "users/edit.html" }

/-- The validated fields of `UserAddForm`. -/
structure SignupForm where
  username : String
  password : String
  email : String
  image_url : String
  deriving Repr, DecidableEq

/-- Modelled from the spec: `User.signup` and the UNIQUE constraints on
username and email live in models.py and the schema, which are not under
src/.  Per the spec, signup "fails with a UniquenessViolation when username
or email already exists (propagated from the persistence layer)" — here the
`IntegrityError` raised at commit is the `none` result; otherwise the new
row (with defaults applied as in the route) is returned. -/
def User_signup (db : DB) (f : SignupForm) (fresh_id : Nat) :
    Option Account :=
  if db.users.any
      (fun u => u.username == f.username || u.email == f.email) then none
  else
    some { id := fresh_id, username := f.username, email := f.email,
           password := f.password,
           image_url :=
             if f.image_url == "" then DEFAULT_IMAGE_URL else f.image_url,
           header_image_url := DEFAULT_HEADER_IMAGE_URL,
           bio := "", location := "" }

/-- `GET|POST /signup` (`signup`): first, unconditionally,
`if CURR_USER_KEY in session: del session[CURR_USER_KEY]`; then, when the
form validates, `User.signup` + commit — an `IntegrityError` flashes
"Username/Email must be unique" and re-renders the form with nothing
persisted; on success the new row is committed and `do_login` stores the
new account's id; a GET or an invalid form just renders the form. -/
def signup (db : DB) (_sess : Sess) (csrf_ok : Bool)
    (form : Option SignupForm) (fresh_id : Nat) : HandlerResult :=
  match (if csrf_ok then form else none) with
  | some f =>
    match User_signup db f fresh_id with
    | none =>
      { db := db, sess := none,
        flashes := [("Username/Email must be unique", "danger")],
        response := Response.render "users/signup.html" }
    | some u =>
      { db := { db with users := db.users ++ [u] }, sess := some u.id,
        flashes := [], response := Response.redirect "/" }
  | none =>
    { db := db, sess := none, flashes := [],
      response := Response.render "users/signup.html" }

/-! ### Concrete example store used by witnesses and counterexamples -/

/-- Example account with id 1. -/
def alice : Account :=
  { id := 1, username := "alice", email := "alice@mail", password := "pw1",
    image_url := "a.png", header_image_url := "ah.png", bio := "", location := "" }

/-- Example account with id 2. -/
def bob : Account :=
  { id := 2, username := "bob", email := "bob@mail", password := "pw2",
    image_url := "b.png", header_image_url := "bh.png", bio := "", location := "" }

/-- Example message with id 10, owned by bob (id 2). -/
def msgB : Message :=
  { id := 10, text := "hi", timestamp := 5, user_id := 2 }

/-- Example message with id 11, owned by alice (id 1). -/
def msgA : Message :=
  { id := 11, text := "yo", timestamp := 7, user_id := 1 }

/-- Example store: alice follows bob; no likes. -/
def exDB : DB :=
  { users := [alice, bob], messages := [msgB, msgA],
    follows := [(1, 2)], likes := [] }

/-! ### Claims -/

/-- Claim C2: for every authenticated account and every message owned by
that same account, the like toggle yields the Forbidden outcome regardless
of the prior like state, and the store (in particular the Likes table) is
unchanged. -/
theorem C2_self_like_forbidden (db : DB) (sess : Sess) (u : Account)
    (msg : Message) (msg_id : Nat) (r : String)
    (hu : gUser db sess = some u) (hm : findMessage db msg_id = some msg)
    (hown : msg.user_id = u.id) :
    (like_message db sess true msg_id r).response = Response.forbidden ∧
    (like_message db sess true msg_id r).db = db := by
  simp [like_message, hu, hm, hown]

/-- Witness for C2: alice (id 1), authenticated with a valid token, attempts
to like her own message 11. -/
theorem C2_witness :
    (like_message exDB (some 1) true 11 "/").response = Response.forbidden ∧
    (like_message exDB (some 1) true 11 "/").db = exDB :=
  C2_self_like_forbidden exDB (some 1) alice msgA 11 "/" rfl rfl rfl

/-- Claim C3 (code bug): with alice (id 1) authenticated with a valid token,
posting a delete for message 10 — owned by bob (id 2), not alice — removes
the message anyway: `delete_message` performs no ownership check, although
its own docstring says "Check that this message was written by the current
user". -/
theorem C3_delete_foreign_message_succeeds :
    msgB.user_id ≠ alice.id ∧
    findMessage exDB 10 = some msgB ∧
    (delete_message exDB (some 1) true 10).db.messages = [msgA] ∧
    (delete_message exDB (some 1) true 10).response =
      Response.redirect "/users/1" := by
  decide

/-- Claim C6: deleting an account removes all messages owned by it and then
the account row itself: after a self-delete no message row references the
deleted account's id, the account row is gone, and the session is cleared. -/
theorem C6_delete_user_cascades (db : DB) (sess : Sess) (u : Account)
    (hu : gUser db sess = some u) :
    (∀ m ∈ (delete_user db sess true).db.messages, m.user_id ≠ u.id) ∧
    (∀ a ∈ (delete_user db sess true).db.users, a.id ≠ u.id) ∧
    (delete_user db sess true).sess = none := by
  simp [delete_user, hu, List.mem_filter]

/-- Witness for C6: alice (id 1) self-deletes with a valid token. -/
theorem C6_witness :
    (∀ m ∈ (delete_user exDB (some 1) true).db.messages,
      m.user_id ≠ alice.id) ∧
    (∀ a ∈ (delete_user exDB (some 1) true).db.users, a.id ≠ alice.id) ∧
    (delete_user exDB (some 1) true).sess = none :=
  C6_delete_user_cascades exDB (some 1) alice rfl

/-- Claim C8: a signup reusing an existing username or email fails on the
propagated uniqueness violation: no account row is persisted, the generic
"Username/Email must be unique" message is flashed, and the signup form is
presented again. -/
theorem C8_duplicate_signup_rejected (db : DB) (sess : Sess)
    (f : SignupForm) (fresh_id : Nat)
    (hdup : db.users.any
      (fun u => u.username == f.username || u.email == f.email) = true) :
    (signup db sess true (some f) fresh_id).db = db ∧
    (signup db sess true (some f) fresh_id).flashes =
      [("Username/Email must be unique", "danger")] ∧
    (signup db sess true (some f) fresh_id).response =
      Response.render "users/signup.html" := by
  simp [signup, User_signup, hdup]

/-- A signup form reusing alice's username. -/
def dupForm : SignupForm :=
  { username := "alice", password := "x", email := "new@mail",
    image_url := "" }

/-- Witness for C8: signing up with alice's username is rejected and
persists nothing. -/
theorem C8_witness :
    (signup exDB none true (some dupForm) 3).db = exDB ∧
    (signup exDB none true (some dupForm) 3).flashes =
      [("Username/Email must be unique", "danger")] ∧
    (signup exDB none true (some dupForm) 3).response =
      Response.render "users/signup.html" :=
  C8_duplicate_signup_rejected exDB none dupForm 3 (by decide)

/-- Claim C9: when no follow edge exists from the acting account to the
target (including when the target account does not exist), unfollow fails
with a consumer-visible server error and the store is unchanged, because
removal is attempted with no existence check. -/
theorem C9_unfollow_missing_edge_fails (db : DB) (sess : Sess) (u : Account)
    (follow_id : Nat) (r : String)
    (hu : gUser db sess = some u)
    (hmiss : ∀ fu, findUser db follow_id = some fu →
      (u.id, fu.id) ∉ db.follows) :
    (stop_following db sess true follow_id r).response =
      Response.serverError ∧
    (stop_following db sess true follow_id r).db = db := by
  cases hfu : findUser db follow_id with
  | none => simp [stop_following, hu, hfu]
  | some fu =>
    have h := hmiss fu hfu
    simp [stop_following, hu, hfu, h]

/-- Witness for C9: bob (id 2) does not follow alice (id 1); his unfollow of
alice is a server error. -/
theorem C9_witness :
    (stop_following exDB (some 2) true 1 "/").response =
      Response.serverError ∧
    (stop_following exDB (some 2) true 1 "/").db = exDB :=
  C9_unfollow_missing_edge_fails exDB (some 2) bob 1 "/" rfl
    (fun fu hfu => by
      have ha : findUser exDB 1 = some alice := rfl
      rw [ha] at hfu
      cases hfu
      decide)

/-- Claim C10: every signup request first drops the acting account from the
session, so whenever no new account row is persisted (a GET, an invalid
form, or a uniqueness violation) the resulting session is anonymous, even
if it was previously authenticated. -/
theorem C10_signup_clears_session (db : DB) (sess : Sess) (csrf_ok : Bool)
    (form : Option SignupForm) (fresh_id : Nat)
    (h : (signup db sess csrf_ok form fresh_id).db.users = db.users) :
    (signup db sess csrf_ok form fresh_id).sess = none := by
  cases hf : (if csrf_ok then form else none) with
  | none => simp [signup, hf]
  | some f =>
    cases hs : User_signup db f fresh_id with
    | none => simp [signup, hf, hs]
    | some u =>
      exfalso
      simp only [signup, hf, hs] at h
      have hlen := congrArg List.length h
      simp at hlen

/-- Witness for C10: a GET of /signup by the authenticated alice leaves the
store untouched and ends the session. -/
theorem C10_witness : (signup exDB (some 1) true none 99).sess = none :=
  C10_signup_clears_session exDB (some 1) true none 99 rfl

/-- Claim C1: for every signed-in viewer the homepage renders exactly the
feed query's result, and that feed contains only messages whose owning
account is the viewer or an account the viewer follows, has at most 100
entries, and is ordered by creation timestamp descending. -/
theorem C1_home_feed_scoped_bounded_sorted (db : DB) (sess : Sess)
    (u : Account) (hu : gUser db sess = some u) :
    (homepage db sess).response =
      Response.renderHome (homepageFeed db u.id) ∧
    (∀ m ∈ homepageFeed db u.id,
      m.user_id = u.id ∨ (u.id, m.user_id) ∈ db.follows) ∧
    (homepageFeed db u.id).length ≤ 100 ∧
    (homepageFeed db u.id).Pairwise
      (fun a b => b.timestamp ≤ a.timestamp) := by
  refine ⟨by simp [homepage, hu], ?_, ?_, ?_⟩
  · intro m hm
    have h1 := List.mem_of_mem_take hm
    rw [List.mem_mergeSort] at h1
    have h2 := List.of_mem_filter h1
    have h3 : m.user_id ∈ followingIds db u.id := by simpa using h2
    rcases List.mem_append.mp h3 with h4 | h4
    · right
      rcases List.mem_map.mp h4 with ⟨e, he, hee⟩
      rcases List.mem_filter.mp he with ⟨hef, hcond⟩
      have he1 : e.1 = u.id := by simpa using hcond
      have hp : e = (u.id, m.user_id) := by
        cases e
        simp_all
      rw [hp] at hef
      exact hef
    · left
      simpa using h4
  · exact List.length_take_le _ _
  · apply List.Pairwise.sublist (List.take_sublist _ _)
    have h := @List.sorted_mergeSort Message
      (fun a b => decide (b.timestamp ≤ a.timestamp))
      (by intro a b c hab hbc; simp_all; omega)
      (by intro a b; simp [Nat.le_total])
      (db.messages.filter
        (fun m => (followingIds db u.id).contains m.user_id))
    exact h.imp (fun hab => by simpa using hab)

/-- Witness for C1: alice's feed over the example store. -/
theorem C1_witness :
    (homepage exDB (some 1)).response =
      Response.renderHome (homepageFeed exDB alice.id) ∧
    (∀ m ∈ homepageFeed exDB alice.id,
      m.user_id = alice.id ∨ (alice.id, m.user_id) ∈ exDB.follows) ∧
    (homepageFeed exDB alice.id).length ≤ 100 ∧
    (homepageFeed exDB alice.id).Pairwise
      (fun a b => b.timestamp ≤ a.timestamp) :=
  C1_home_feed_scoped_bounded_sorted exDB (some 1) alice rfl

/-- Claim C5: for an authenticated account and an existing message it does
not own, toggling the like twice in sequence restores the like edge between
them to its original state. -/
theorem C5_toggle_involution (db : DB) (sess : Sess) (u : Account)
    (msg : Message) (msg_id : Nat) (r : String)
    (hu : gUser db sess = some u) (hm : findMessage db msg_id = some msg)
    (hown : msg.user_id ≠ u.id) :
    ((u.id, msg.id) ∈
        (like_message (like_message db sess true msg_id r).db sess true
          msg_id r).db.likes) ↔
      (u.id, msg.id) ∈ db.likes := by
  have step : ∀ l : List (Nat × Nat),
      (like_message { db with likes := l } sess true msg_id r).db =
        { db with likes :=
          if (u.id, msg.id) ∈ l then
            l.filter (fun e => e ≠ (u.id, msg.id))
          else l ++ [(u.id, msg.id)] } := by
    intro l
    have hu1 : gUser { db with likes := l } sess = some u := hu
    have hm1 : findMessage { db with likes := l } msg_id = some msg := hm
    by_cases hmem : (u.id, msg.id) ∈ l
    · simp [like_message, hu1, hm1, hown, hmem]
    · simp [like_message, hu1, hm1, hown, hmem]
  have e1 : (like_message db sess true msg_id r).db =
      { db with likes :=
        if (u.id, msg.id) ∈ db.likes then
          db.likes.filter (fun e => e ≠ (u.id, msg.id))
        else db.likes ++ [(u.id, msg.id)] } := step db.likes
  rw [e1, step]
  by_cases hc : (u.id, msg.id) ∈ db.likes
  · simp [hc, List.mem_filter]
  · simp [hc, List.mem_filter]

/-- Witness for C5: alice toggles her like of bob's message 10 twice; the
like edge ends where it started. -/
theorem C5_witness :
    ((alice.id, msgB.id) ∈
        (like_message (like_message exDB (some 1) true 10 "/").db (some 1)
          true 10 "/").db.likes) ↔
      (alice.id, msgB.id) ∈ exDB.likes :=
  C5_toggle_involution exDB (some 1) alice msgB 10 "/" rfl rfl (by decide)

/-- Claim C7: a validated profile edit is gated by re-authentication with
the supplied current password: on failure no account row changes and the
specific "Incorrect password" outcome is produced over the re-rendered
form; on success the acting account's row receives the submitted fields. -/
theorem C7_profile_edit_requires_password (db : DB) (sess : Sess)
    (u : Account) (f : EditForm) (hu : gUser db sess = some u) :
    (authenticate db u.username f.password = none →
      (profile db sess true (some f)).db = db ∧
      (profile db sess true (some f)).flashes =
        [("Incorrect password", "danger")] ∧
      (profile db sess true (some f)).response =
        Response.render "users/edit.html") ∧
    (∀ a, authenticate db u.username f.password = some a →
      ∀ x ∈ (profile db sess true (some f)).db.users, x.id = u.id →
        x.username = f.username ∧ x.email = f.email ∧ x.bio = f.bio) := by
  constructor
  · intro hfail
    have hns : (authenticate db u.username f.password).isSome = false := by
      rw [hfail]; rfl
    simp [profile, hu, hns]
  · intro a ha x hx hxid
    have hs : (authenticate db u.username f.password).isSome = true := by
      rw [ha]; rfl
    simp only [profile, hu, hs, if_true] at hx
    simp only [List.mem_map] at hx
    rcases hx with ⟨y, hy, rfl⟩
    by_cases hid : y.id = u.id
    · simp [hid]
    · simp [hid] at hxid

/-- An edit form carrying a wrong current-password confirmation. -/
def badEdit : EditForm :=
  { username := "z", email := "z@mail", image_url := "",
    header_image_url := "", bio := "", password := "wrong" }

/-- Witness for C7: alice submits a valid edit form with the wrong current
password; nothing changes and "Incorrect password" is flashed. -/
theorem C7_witness :
    (profile exDB (some 1) true (some badEdit)).db = exDB ∧
    (profile exDB (some 1) true (some badEdit)).flashes =
      [("Incorrect password", "danger")] ∧
    (profile exDB (some 1) true (some badEdit)).response =
      Response.render "users/edit.html" :=
  (C7_profile_edit_requires_password exDB (some 1) alice badEdit rfl).1
    (by decide)

/-- A signup form with a username and email unused in `exDB`. -/
def freshForm : SignupForm :=
  { username := "carol", password := "x", email := "carol@mail",
    image_url := "" }

/-- Claim C4 counterexample, at two concrete inputs. First: with alice
(id 1) authenticated but an invalid anti-forgery token, the mutating
compose-message operation does not produce the uniform "access
unauthorized" outcome: it re-renders the compose form with no flash (it
does, however, leave the store unchanged). Second: the mutating signup
operation, on a session with no authenticated account but a valid token
and a fresh username, does perform a store mutation (a new account row),
so the claim's blanket "no store mutation when the session has no
authenticated account" fails at signup as well. -/
theorem C4_counterexample :
    ((add_message exDB (some 1) false (some "hello") 12 9).db = exDB ∧
    (add_message exDB (some 1) false (some "hello") 12 9).flashes = [] ∧
    (add_message exDB (some 1) false (some "hello") 12 9).response =
      Response.render "messages/create.html" ∧
    add_message exDB (some 1) false (some "hello") 12 9 ≠
      unauthorized exDB (some 1)) ∧
    (gUser exDB none = none ∧
    (signup exDB none true (some freshForm) 3).db ≠ exDB ∧
    (signup exDB none true (some freshForm) 3).flashes = [] ∧
    signup exDB none true (some freshForm) 3 ≠
      unauthorized exDB none) := by
  decide

/-- Claim C4 (amended): for every mutating operation other than signup,
when the session has no authenticated account or the anti-forgery token is
missing/invalid, no store mutation is performed; among these, the
operations gated by the bare CSRF form — logout, follow, unfollow, account
delete, like toggle, message delete — produce exactly the uniform "access
unauthorized" outcome in every such case, with no distinction between the
two causes, while the form-backed operations — compose message, edit
profile — produce "access unauthorized" when the acting account is missing
but re-render their own form (without the uniform outcome) when only the
token is invalid. Signup requires no authenticated account; when the token
is missing/invalid it performs no store mutation and re-renders its own
form. -/
theorem C4_gate_no_mutation_uniform_on_csrf_routes (db : DB) (sess : Sess)
    (csrf_ok : Bool) (h : gUser db sess = none ∨ csrf_ok = false) :
    logout db sess csrf_ok = unauthorized db sess ∧
    (∀ fid r, start_following db sess csrf_ok fid r =
      unauthorized db sess) ∧
    (∀ fid r, stop_following db sess csrf_ok fid r =
      unauthorized db sess) ∧
    delete_user db sess csrf_ok = unauthorized db sess ∧
    (∀ mid r, like_message db sess csrf_ok mid r = unauthorized db sess) ∧
    (∀ mid, delete_message db sess csrf_ok mid = unauthorized db sess) ∧
    (∀ t i ts, (add_message db sess csrf_ok t i ts).db = db) ∧
    (gUser db sess = none → ∀ t i ts,
      add_message db sess csrf_ok t i ts = unauthorized db sess) ∧
    (csrf_ok = false → ∀ u, gUser db sess = some u → ∀ t i ts,
      (add_message db sess csrf_ok t i ts).response =
        Response.render "messages/create.html") ∧
    (∀ f, (profile db sess csrf_ok f).db = db) ∧
    (gUser db sess = none → ∀ f,
      profile db sess csrf_ok f = unauthorized db sess) ∧
    (csrf_ok = false → ∀ u, gUser db sess = some u → ∀ f,
      (profile db sess csrf_ok f).response =
        Response.render "users/edit.html") ∧
    (csrf_ok = false → ∀ f i, (signup db sess csrf_ok f i).db = db ∧
      (signup db sess csrf_ok f i).response =
        Response.render "users/signup.html") := by
  refine ⟨?_, ?_, ?_, ?_, ?_, ?_, ?_, ?_, ?_, ?_, ?_, ?_, ?_⟩
  · rcases h with h | h
    · simp [logout, h]
    · subst h; simp [logout]
  · intro fid r
    rcases h with h | h
    · simp [start_following, h]
    · subst h; simp [start_following]
  · intro fid r
    rcases h with h | h
    · simp [stop_following, h]
    · subst h; simp [stop_following]
  · rcases h with h | h
    · simp [delete_user, h]
    · subst h; simp [delete_user]
  · intro mid r
    rcases h with h | h
    · simp [like_message, h]
    · subst h; simp [like_message]
  · intro mid
    rcases h with h | h
    · simp [delete_message, h]
    · subst h; simp [delete_message]
  · intro t i ts
    rcases h with h | h
    · simp [add_message, unauthorized, h]
    · subst h
      cases hg : gUser db sess with
      | none => simp [add_message, unauthorized, hg]
      | some u => simp [add_message, hg]
  · intro hg t i ts
    simp [add_message, hg]
  · intro hc u hu t i ts
    subst hc
    simp [add_message, hu]
  · intro f
    rcases h with h | h
    · simp [profile, unauthorized, h]
    · subst h
      cases hg : gUser db sess with
      | none => simp [profile, unauthorized, hg]
      | some u => simp [profile, hg]
  · intro hg f
    simp [profile, hg]
  · intro hc u hu f
    subst hc
    simp [profile, hu]
  · intro hc f i
    subst hc
    simp [signup]

/-- Witness for C4 (amended): an anonymous logout attempt with an invalid
token gets exactly the uniform unauthorized outcome. -/
theorem C4_witness : logout exDB none false = unauthorized exDB none :=
  (C4_gate_no_mutation_uniform_on_csrf_routes exDB none false
    (Or.inr rfl)).1
